import Mathlib

/-
  Verification of the QNNPACK 8-bit NHWC max-pooling operator
  (src/max-pooling.c): creation-time validation, output-geometry
  computation, the indirection-buffer rebuild performed by setup, and
  the setup cache.

  Shallow embedding conventions:
  * `size_t` values are modelled as `Nat`; the creation-time pooling-size
    product is a `uint32_t` product and is modelled with an explicit
    `% 2^32` (`uint32_mul`).
  * Addresses are modelled as `Nat` (the byte offset that the C pointer
    arithmetic computes; `input_pixel_stride` is counted in elements,
    exactly as in the source expression).
  * The indirection buffer is modelled as an allocated entry count
    (`indirection_size`) together with a total contents function
    `indirection : Nat → Nat`; `realloc` keeps the contents function and
    changes only the size, matching realloc's preservation of existing
    contents.  A `realloc_called` flag records whether the reallocation
    path was taken.
  * The ambient library state (`qnnp_params.initialized`,
    `qnnp_params.u8maxpool.mr`) and the allocator's success are passed
    as explicit parameters (`initialized`, `mr`, `allocOk`).
-/

/-- Modelled from the spec: the difference-or-zero helper `doz` from the
math header (the header itself is not part of the sources under study):
saturating subtraction, i.e. subtraction clamped at zero, which on `Nat`
is truncated subtraction. -/
def doz (a b : Nat) : Nat := a - b

/-- `uint32_t` multiplication: the product reduced modulo `2^32`, as in
`const uint32_t pooling_size = pooling_height * pooling_width;`. -/
def uint32_mul (a b : Nat) : Nat := (a * b) % 4294967296

/-- `compute_output_dimension` from src/max-pooling.c (lines 25–33):
effective kernel extent `(kernel − 1) * dilation + 1`, then floor
division by the stride and `+ 1`.  `size_t` arithmetic is modelled with
`Nat`; the subtractions coincide with the C ones on every input the
callers supply (kernel extent ≥ 1, padded extent ≥ effective kernel). -/
def compute_output_dimension (padded_input_dimension kernel_dimension dilation_dimension stride_dimension : Nat) : Nat :=
  (padded_input_dimension - ((kernel_dimension - 1) * dilation_dimension + 1)) / stride_dimension + 1

/-- The status codes returned by the operator (subset of `enum
qnnp_status` actually produced by src/max-pooling.c). -/
inductive qnnp_status where
  | success
  | uninitialized
  | invalid_parameter
  | out_of_memory
deriving DecidableEq

/-- The fields of `struct qnnp_operator` used by src/max-pooling.c.
The quantization parameters are modelled as the stored `(min, max)`
pair (the external builder is consulted once and its result stored
verbatim); the constant `ukernel_type`/`format` tags, which no claim
mentions, are omitted. -/
structure qnnp_operator where
  input_padding_top : Nat
  input_padding_right : Nat
  input_padding_bottom : Nat
  input_padding_left : Nat
  kernel_height : Nat
  kernel_width : Nat
  stride_height : Nat
  stride_width : Nat
  dilation_height : Nat
  dilation_width : Nat
  channels : Nat
  output_min : Nat
  output_max : Nat
  batch_size : Nat
  input_height : Nat
  input_width : Nat
  input : Nat
  input_pixel_stride : Nat
  output_height : Nat
  output_width : Nat
  output : Nat
  output_pixel_stride : Nat
  last_input : Nat
  last_input_height : Nat
  last_input_width : Nat
  valid_batch_size : Nat
  indirection_size : Nat
  indirection : Nat → Nat

/-- Result of `qnnp_create_max_pooling2d_nhwc_u8`: the status, the
operator written through `*max_pooling_out` on success, and whether the
`calloc` allocation point was reached. -/
structure CreateResult where
  status : qnnp_status
  op : Option qnnp_operator
  allocAttempted : Bool

/-- `qnnp_create_max_pooling2d_nhwc_u8` (src/max-pooling.c lines
35–134).  The checks appear in source order; `calloc` zero-initializes
every dynamic and cache field before the static fields are populated. -/
def qnnp_create_max_pooling2d_nhwc_u8 (initialized allocOk : Bool)
    (input_padding_top input_padding_right input_padding_bottom input_padding_left
     pooling_height pooling_width stride_height stride_width
     dilation_height dilation_width channels output_min output_max : Nat) : CreateResult :=
  if initialized = false then ⟨.uninitialized, none, false⟩
  else
    let pooling_size := uint32_mul pooling_height pooling_width
    if pooling_size = 0 then ⟨.invalid_parameter, none, false⟩
    else if pooling_size = 1 then ⟨.invalid_parameter, none, false⟩
    else if stride_height = 0 ∨ stride_width = 0 then ⟨.invalid_parameter, none, false⟩
    else if dilation_height = 0 ∨ dilation_width = 0 then ⟨.invalid_parameter, none, false⟩
    else if channels = 0 then ⟨.invalid_parameter, none, false⟩
    else if allocOk = false then ⟨.out_of_memory, none, true⟩
    else ⟨.success, some
      { input_padding_top := input_padding_top
        input_padding_right := input_padding_right
        input_padding_bottom := input_padding_bottom
        input_padding_left := input_padding_left
        kernel_height := pooling_height
        kernel_width := pooling_width
        stride_height := stride_height
        stride_width := stride_width
        dilation_height := dilation_height
        dilation_width := dilation_width
        channels := channels
        output_min := output_min
        output_max := output_max
        batch_size := 0
        input_height := 0
        input_width := 0
        input := 0
        input_pixel_stride := 0
        output_height := 0
        output_width := 0
        output := 0
        output_pixel_stride := 0
        last_input := 0
        last_input_height := 0
        last_input_width := 0
        valid_batch_size := 0
        indirection_size := 0
        indirection := fun _ => 0 }, true⟩

/-- `width_step` (src/max-pooling.c line 202): `kernelWidth` when the
width dilation exceeds 1, else `min(strideWidth, kernelWidth)`. -/
def width_step (dilation_width stride_width pooling_width : Nat) : Nat :=
  if 1 < dilation_width then pooling_width else min stride_width pooling_width

/-- The loop-nest tuples `(image, output_y, pooling_y, output_x,
pooling_x)` of the population loop (src/max-pooling.c lines 214–231),
listed in source iteration order. -/
def loopTuples (B OH PH OW PW : Nat) : List (Nat × Nat × Nat × Nat × Nat) :=
  (List.range B).flatMap fun i =>
    (List.range OH).flatMap fun oy =>
      (List.range PH).flatMap fun py =>
        (List.range OW).flatMap fun ox =>
          (List.range PW).map fun px => (i, oy, py, ox, px)

/-- The flat indirection-buffer index of a loop tuple (src/max-pooling.c
lines 223–225): `(image*OH + oy) * (poolingSize + (OW*widthStep − 1)*PH)
+ ox*widthStep*PH + px*PH + py` with `poolingSize = PH*PW`. -/
def flatIndex (OH PH PW OW WS i oy py ox px : Nat) : Nat :=
  (i * OH + oy) * (PH * PW + (OW * WS - 1) * PH) + (ox * WS * PH + px * PH + py)

/-- The address stored for a loop tuple (src/max-pooling.c lines
217–226): clamp the unpadded row/column with `doz` then `min` against
the last valid index, and form
`input + ((image*ih + clampedY)*iw + clampedX) * inputPixelStride`. -/
def indirectionAddr (inp ih iw ips sh sw dh dw padT padL i oy py ox px : Nat) : Nat :=
  inp + ((i * ih + min (doz (oy * sh + py * dh) padT) (ih - 1)) * iw
          + min (doz (ox * sw + px * dw) padL) (iw - 1)) * ips

/-- One store into the contents function of the indirection buffer. -/
def store (f : Nat → Nat) (p : Nat × Nat) : Nat → Nat :=
  fun j => if j = p.1 then p.2 else f j

/-- Perform a list of `(index, value)` stores left to right. -/
def applyWrites (f : Nat → Nat) (ws : List (Nat × Nat)) : Nat → Nat :=
  ws.foldl store f

/-- The full list of `(index, address)` stores performed by the
population loop, in source order. -/
def maxPoolWrites (B OH PH OW PW WS inp ih iw ips sh sw dh dw padT padL : Nat) :
    List (Nat × Nat) :=
  (loopTuples B OH PH OW PW).map fun t =>
    match t with
    | (i, oy, py, ox, px) =>
        (flatIndex OH PH PW OW WS i oy py ox px,
         indirectionAddr inp ih iw ips sh sw dh dw padT padL i oy py ox px)

/-- The field assignments of src/max-pooling.c lines 164–181: the
per-call dynamic fields, including the derived output geometry, written
before the cache is consulted. -/
def updatedOp (op : qnnp_operator) (batch ih iw inp ips outp outps : Nat) : qnnp_operator :=
  { op with
    batch_size := batch
    input_height := ih
    input_width := iw
    input := inp
    input_pixel_stride := ips
    output_height := compute_output_dimension
      (op.input_padding_top + ih + op.input_padding_bottom)
      op.kernel_height op.dilation_height op.stride_height
    output_width := compute_output_dimension
      (op.input_padding_left + iw + op.input_padding_right)
      op.kernel_width op.dilation_width op.stride_width
    output := outp
    output_pixel_stride := outps }

/-- The indirection-buffer entry count of src/max-pooling.c lines
204–205: `(mr − 1) + batch * outputHeight * (poolingSize +
(outputWidth * widthStep − 1) * poolingHeight)`.  (The C expression is
this count times `sizeof(void*)`; the model counts entries.) -/
def indirectionBufferSize (mr : Nat) (op1 : qnnp_operator) (batch : Nat) : Nat :=
  (mr - 1) + batch * op1.output_height *
    (op1.kernel_height * op1.kernel_width +
      (op1.output_width * width_step op1.dilation_width op1.stride_width op1.kernel_width - 1) *
        op1.kernel_height)

/-- The rebuild branch of setup (src/max-pooling.c lines 194–235):
grow the buffer, run the population loop, and refresh the cache fields
with `max(validBatchSize, batchSize)`. -/
def rebuildOp (mr : Nat) (op1 : qnnp_operator) (vbs batch ih iw inp ips : Nat) : qnnp_operator :=
  { op1 with
    indirection_size := indirectionBufferSize mr op1 batch
    indirection := applyWrites op1.indirection
      (maxPoolWrites batch op1.output_height op1.kernel_height op1.output_width
        op1.kernel_width (width_step op1.dilation_width op1.stride_width op1.kernel_width)
        inp ih iw ips op1.stride_height op1.stride_width
        op1.dilation_height op1.dilation_width
        op1.input_padding_top op1.input_padding_left)
    last_input := inp
    last_input_height := ih
    last_input_width := iw
    valid_batch_size := max vbs batch }

/-- Result of `qnnp_setup_max_pooling2d_nhwc_u8`: the status, the
operator state after the call, and whether `realloc` was invoked. -/
structure SetupResult where
  status : qnnp_status
  op : qnnp_operator
  realloc_called : Bool

/-- `qnnp_setup_max_pooling2d_nhwc_u8` (src/max-pooling.c lines
136–238).  The unused thread-pool handle is dropped.  On `realloc`
failure the old buffer (size and contents) is kept, exactly as
`realloc` returning NULL leaves the original block valid. -/
def qnnp_setup_max_pooling2d_nhwc_u8 (initialized : Bool) (mr : Nat) (allocOk : Bool)
    (op : qnnp_operator) (batch_size input_height input_width inp input_pixel_stride
     outp output_pixel_stride : Nat) : SetupResult :=
  if initialized = false then ⟨.uninitialized, op, false⟩
  else if batch_size = 0 then ⟨.invalid_parameter, op, false⟩
  else if input_width = 0 ∨ input_height = 0 then ⟨.invalid_parameter, op, false⟩
  else
    let op1 := updatedOp op batch_size input_height input_width inp input_pixel_stride
      outp output_pixel_stride
    let valid_batch_size :=
      if inp = op.last_input ∧ input_height = op.last_input_height ∧
           input_width = op.last_input_width
        then op.valid_batch_size else 0
    if (inp = op.last_input ∧ input_height = op.last_input_height ∧
          input_width = op.last_input_width) ∧ batch_size ≤ valid_batch_size
      then ⟨.success, op1, false⟩
    else if allocOk = false then ⟨.out_of_memory, op1, true⟩
    else ⟨.success,
      rebuildOp mr op1 valid_batch_size batch_size input_height input_width inp
        input_pixel_stride, true⟩

/-- C1: the geometry calculator returns
`(padded − ((kernel − 1) * dilation + 1)) / stride + 1` with floor
division whenever the stride is positive and the padded extent covers
the effective kernel; in particular it yields 3 for padding 0,
dilation 1, stride 1, kernel 3, input 5, and 2 for kernel 2, stride 2,
dilation 1, input 4, padding 0. -/
theorem compute_output_dimension_formula (paddedExtent kernelExtent dilationExtent strideExtent : Nat)
    (hs : 0 < strideExtent)
    (hp : (kernelExtent - 1) * dilationExtent + 1 ≤ paddedExtent) :
    compute_output_dimension paddedExtent kernelExtent dilationExtent strideExtent =
      (paddedExtent - ((kernelExtent - 1) * dilationExtent + 1)) / strideExtent + 1 ∧
    compute_output_dimension 5 3 1 1 = 3 ∧
    compute_output_dimension 4 2 1 2 = 2 :=
  ⟨rfl, rfl, rfl⟩

/-- Witness for C1 at padded 5, kernel 3, dilation 1, stride 1. -/
theorem compute_output_dimension_formula_witness :
    compute_output_dimension 5 3 1 1 = (5 - ((3 - 1) * 1 + 1)) / 1 + 1 ∧
    compute_output_dimension 5 3 1 1 = 3 ∧
    compute_output_dimension 4 2 1 2 = 2 :=
  compute_output_dimension_formula 5 3 1 1 (by decide) (by decide)

/-- A store list leaves an index alone when no write targets it. -/
theorem applyWrites_of_not_mem (f : Nat → Nat) (ws : List (Nat × Nat)) (i : Nat)
    (h : ∀ v, (i, v) ∉ ws) : applyWrites f ws i = f i := by
  induction ws generalizing f with
  | nil => rfl
  | cons p rest ih =>
      have hi : i ≠ p.1 := by
        intro he
        exact h p.2 (by rw [he]; exact List.mem_cons_self _ _)
      have hrest : ∀ v, (i, v) ∉ rest := fun v hv => h v (List.mem_cons_of_mem _ hv)
      show applyWrites (store f p) rest i = f i
      rw [ih (store f p) hrest]
      simp [store, hi]

/-- If an index is written and every write to it stores the same value,
the final contents at that index are that value. -/
theorem applyWrites_of_mem (f : Nat → Nat) (ws : List (Nat × Nat)) (i v : Nat)
    (hmem : (i, v) ∈ ws) (huniq : ∀ v', (i, v') ∈ ws → v' = v) :
    applyWrites f ws i = v := by
  induction ws generalizing f with
  | nil => cases hmem
  | cons p rest ih =>
      show applyWrites (store f p) rest i = v
      by_cases hr : ∃ v', (i, v') ∈ rest
      · obtain ⟨v', hv'⟩ := hr
        have hv'v : v' = v := huniq v' (List.mem_cons_of_mem _ hv')
        subst hv'v
        exact ih (store f p) hv' (fun w hw => huniq w (List.mem_cons_of_mem _ hw))
      · push_neg at hr
        rw [applyWrites_of_not_mem (store f p) rest i (fun w hw => hr w hw)]
        rcases List.mem_cons.mp hmem with hp | hrest
        · rw [← hp]; simp [store]
        · exact absurd hrest (hr v)

/-- Membership in the loop-tuple list is exactly componentwise bounds. -/
theorem mem_loopTuples {B OH PH OW PW i oy py ox px : Nat} :
    (i, oy, py, ox, px) ∈ loopTuples B OH PH OW PW ↔
      i < B ∧ oy < OH ∧ py < PH ∧ ox < OW ∧ px < PW := by
  simp [loopTuples, List.mem_flatMap, List.mem_map, List.mem_range, Prod.mk.injEq]
  constructor
  · rintro ⟨a, ha, b, hb, c, hc, d, hd, e, he, h1, h2, h3, h4, h5⟩
    subst h1; subst h2; subst h3; subst h4; subst h5
    exact ⟨ha, hb, hc, hd, he⟩
  · rintro ⟨h1, h2, h3, h4, h5⟩
    exact ⟨i, h1, oy, h2, py, h3, ox, h4, px, h5, rfl, rfl, rfl, rfl, rfl⟩

/-- Uniqueness of block decomposition: quotient and remainder of
`b * R + r` with `r < R` are determined. -/
theorem block_inj {R b b' r r' : Nat} (hr : r < R) (hr' : r' < R)
    (h : b * R + r = b' * R + r') : b = b' ∧ r = r' := by
  have hR : 0 < R := Nat.lt_of_le_of_lt (Nat.zero_le _) hr
  have hb : b = b' := by
    have e1 : (b * R + r) / R = b := by
      rw [Nat.mul_comm, Nat.mul_add_div hR, Nat.div_eq_of_lt hr, Nat.add_zero]
    have e2 : (b' * R + r') / R = b' := by
      rw [Nat.mul_comm, Nat.mul_add_div hR, Nat.div_eq_of_lt hr', Nat.add_zero]
    rw [← e1, ← e2, h]
  subst hb
  exact ⟨rfl, Nat.add_left_cancel h⟩

/-- The inner offset of a loop tuple is smaller than the per-row block
size `PH*PW + (OW*WS − 1)*PH`. -/
theorem inner_lt_block (PH PW OW WS ox px py : Nat) (hWS : 0 < WS)
    (hox : ox < OW) (hpx : px < PW) (hpy : py < PH) :
    ox * WS * PH + px * PH + py < PH * PW + (OW * WS - 1) * PH := by
  have h4 : (ox + 1) * WS ≤ OW * WS := Nat.mul_le_mul_right WS hox
  have h3 : ox * WS + WS ≤ OW * WS := by
    calc ox * WS + WS = (ox + 1) * WS := by ring
      _ ≤ OW * WS := h4
  have h2 : ox * WS + px + 1 ≤ OW * WS - 1 + PW := by
    calc ox * WS + px + 1 = ox * WS + (px + 1) := by ring
      _ ≤ ox * WS + PW := Nat.add_le_add_left hpx (ox * WS)
      _ ≤ (OW * WS - WS) + PW := Nat.add_le_add_right (Nat.le_sub_of_add_le h3) PW
      _ ≤ (OW * WS - 1) + PW := Nat.add_le_add_right (Nat.sub_le_sub_left hWS (OW * WS)) PW
  calc ox * WS * PH + px * PH + py
      < ox * WS * PH + px * PH + PH := by
        exact Nat.add_lt_add_left hpy _
    _ = (ox * WS + px + 1) * PH := by ring
    _ ≤ (OW * WS - 1 + PW) * PH := Nat.mul_le_mul_right PH h2
    _ = PH * PW + (OW * WS - 1) * PH := by ring

/-- Decomposing equal flat indices: the image, output row and pooling
row coincide, and the combined column offsets `ox*WS + px` coincide. -/
theorem flatIndex_decomp {OH PH PW OW WS i oy py ox px i' oy' py' ox' px' : Nat}
    (hWS : 0 < WS) (hoy : oy < OH) (hpy : py < PH) (hox : ox < OW) (hpx : px < PW)
    (hoy' : oy' < OH) (hpy' : py' < PH) (hox' : ox' < OW) (hpx' : px' < PW)
    (heq : flatIndex OH PH PW OW WS i oy py ox px =
           flatIndex OH PH PW OW WS i' oy' py' ox' px') :
    i = i' ∧ oy = oy' ∧ py = py' ∧ ox * WS + px = ox' * WS + px' := by
  have hr : ox * WS * PH + px * PH + py < PH * PW + (OW * WS - 1) * PH :=
    inner_lt_block PH PW OW WS ox px py hWS hox hpx hpy
  have hr' : ox' * WS * PH + px' * PH + py' < PH * PW + (OW * WS - 1) * PH :=
    inner_lt_block PH PW OW WS ox' px' py' hWS hox' hpx' hpy'
  obtain ⟨hb, hinner⟩ := block_inj hr hr' heq
  obtain ⟨hi, hoyy⟩ := block_inj hoy hoy' hb
  have hinner2 : (ox * WS + px) * PH + py = (ox' * WS + px') * PH + py' := by
    rw [Nat.add_mul, Nat.add_mul]
    exact hinner
  obtain ⟨hx, hpyy⟩ := block_inj hpy hpy' hinner2
  exact ⟨hi, hoyy, hpyy, hx⟩

/-- Colliding column offsets produce the same unclamped column
coordinate: when the flat index identifies `(ox, px)` pairs, the
quantity `ox*strideW + px*dilationW` is the same for both. -/
theorem collision_column (sw dw PW WS ox px ox' px' : Nat)
    (hSW : 0 < sw) (hDW : 0 < dw) (hpx : px < PW) (hpx' : px' < PW)
    (hws : WS = width_step dw sw PW)
    (h : ox * WS + px = ox' * WS + px') :
    ox * sw + px * dw = ox' * sw + px' * dw := by
  by_cases hd : 1 < dw
  · have hWSPW : WS = PW := by rw [hws, width_step, if_pos hd]
    subst hWSPW
    obtain ⟨hoxe, hpxe⟩ := block_inj hpx hpx' (by
      calc ox * WS + px = ox * WS + px := rfl
        _ = ox' * WS + px' := h)
    rw [hoxe, hpxe]
  · have hd1 : dw = 1 := by omega
    by_cases hsp : sw ≤ PW
    · have hWSSW : WS = sw := by
        rw [hws, width_step, if_neg hd]
        exact min_eq_left hsp
      subst hWSSW
      calc ox * WS + px * dw = ox * WS + px := by rw [hd1, Nat.mul_one]
        _ = ox' * WS + px' := h
        _ = ox' * WS + px' * dw := by rw [hd1, Nat.mul_one]
    · have hWSPW : WS = PW := by
        rw [hws, width_step, if_neg hd]
        exact min_eq_right (Nat.le_of_lt (Nat.lt_of_not_le hsp))
      subst hWSPW
      obtain ⟨hoxe, hpxe⟩ := block_inj hpx hpx' h
      rw [hoxe, hpxe]

/-- Two loop tuples with the same flat index store the same address. -/
theorem collision_addr (inp ih iw ips sh sw dh dw padT padL : Nat)
    {OH PH PW OW WS i oy py ox px i' oy' py' ox' px' : Nat}
    (hPH : 0 < PH) (hPW : 0 < PW) (hSW : 0 < sw) (hDW : 0 < dw)
    (hws : WS = width_step dw sw PW)
    (hoy : oy < OH) (hpy : py < PH) (hox : ox < OW) (hpx : px < PW)
    (hoy' : oy' < OH) (hpy' : py' < PH) (hox' : ox' < OW) (hpx' : px' < PW)
    (heq : flatIndex OH PH PW OW WS i oy py ox px =
           flatIndex OH PH PW OW WS i' oy' py' ox' px') :
    indirectionAddr inp ih iw ips sh sw dh dw padT padL i oy py ox px =
      indirectionAddr inp ih iw ips sh sw dh dw padT padL i' oy' py' ox' px' := by
  have hWS : 0 < WS := by
    rw [hws, width_step]
    by_cases hd : 1 < dw
    · rw [if_pos hd]; exact hPW
    · rw [if_neg hd]; exact lt_min hSW hPW
  obtain ⟨hi, hoyy, hpyy, hx⟩ :=
    flatIndex_decomp hWS hoy hpy hox hpx hoy' hpy' hox' hpx' heq
  have hcol : ox * sw + px * dw = ox' * sw + px' * dw :=
    collision_column sw dw PW WS ox px ox' px' hSW hDW hpx hpx' hws hx
  rw [indirectionAddr, indirectionAddr, hi, hoyy, hpyy, hcol]

/-- Main population lemma: after all stores of the population loop, the
entry at the flat index of any in-range loop tuple holds exactly the
clamped address of that tuple, regardless of the prior buffer contents
(overlapping stores — possible when the stride-bounded `width_step` is
taken — always deposit the same address). -/
theorem applyWrites_maxPool (f : Nat → Nat)
    (B OH PH OW PW WS inp ih iw ips sh sw dh dw padT padL i oy py ox px : Nat)
    (hPH : 0 < PH) (hPW : 0 < PW) (hSW : 0 < sw) (hDW : 0 < dw)
    (hws : WS = width_step dw sw PW)
    (hi : i < B) (hoy : oy < OH) (hpy : py < PH) (hox : ox < OW) (hpx : px < PW) :
    applyWrites f (maxPoolWrites B OH PH OW PW WS inp ih iw ips sh sw dh dw padT padL)
      (flatIndex OH PH PW OW WS i oy py ox px) =
    indirectionAddr inp ih iw ips sh sw dh dw padT padL i oy py ox px := by
  apply applyWrites_of_mem
  · exact List.mem_map.mpr
      ⟨(i, oy, py, ox, px), mem_loopTuples.mpr ⟨hi, hoy, hpy, hox, hpx⟩, rfl⟩
  · intro v' hv'
    obtain ⟨⟨i', oy', py', ox', px'⟩, ht, he⟩ := List.mem_map.mp hv'
    obtain ⟨hb1, hb2, hb3, hb4, hb5⟩ := mem_loopTuples.mp ht
    have hfi : flatIndex OH PH PW OW WS i' oy' py' ox' px' =
        flatIndex OH PH PW OW WS i oy py ox px := congrArg Prod.fst he
    have hval : indirectionAddr inp ih iw ips sh sw dh dw padT padL i' oy' py' ox' px' = v' :=
      congrArg Prod.snd he
    rw [← hval]
    exact collision_addr inp ih iw ips sh sw dh dw padT padL hPH hPW hSW hDW hws
      hb2 hb3 hb4 hb5 hoy hpy hox hpx hfi

/-- The cache-hit path of setup: reduced form of the call when the
address/shape match and the batch is within the validated bound. -/
theorem setup_cache_hit_eq (mr : Nat) (allocOk : Bool) (op : qnnp_operator)
    (batch ih iw inp ips outp outps : Nat)
    (hb : ¬ batch = 0) (hwz : ¬ (iw = 0 ∨ ih = 0))
    (hm : inp = op.last_input ∧ ih = op.last_input_height ∧ iw = op.last_input_width)
    (hle : batch ≤ op.valid_batch_size) :
    qnnp_setup_max_pooling2d_nhwc_u8 true mr allocOk op batch ih iw inp ips outp outps =
      ⟨.success, updatedOp op batch ih iw inp ips outp outps, false⟩ := by
  rw [qnnp_setup_max_pooling2d_nhwc_u8]
  rw [if_neg (by simp), if_neg hb, if_neg hwz]
  rw [if_pos ⟨hm, by rw [if_pos hm]; exact hle⟩]

/-- The allocation-failure path of setup: reduced form of the call when
the cache misses and `realloc` fails. -/
theorem setup_alloc_fail_eq (mr : Nat) (op : qnnp_operator)
    (batch ih iw inp ips outp outps : Nat)
    (hb : ¬ batch = 0) (hwz : ¬ (iw = 0 ∨ ih = 0))
    (hmiss : ¬ ((inp = op.last_input ∧ ih = op.last_input_height ∧
        iw = op.last_input_width) ∧ batch ≤ op.valid_batch_size)) :
    qnnp_setup_max_pooling2d_nhwc_u8 true mr false op batch ih iw inp ips outp outps =
      ⟨.out_of_memory, updatedOp op batch ih iw inp ips outp outps, true⟩ := by
  rw [qnnp_setup_max_pooling2d_nhwc_u8]
  rw [if_neg (by simp), if_neg hb, if_neg hwz]
  rw [if_neg (fun hc => hmiss ⟨hc.1, by have h2 := hc.2; rwa [if_pos hc.1] at h2⟩)]
  rw [if_pos rfl]

/-- The rebuild path of setup: reduced form of the call when the cache
misses and allocation succeeds. -/
theorem setup_rebuild_eq (mr : Nat) (op : qnnp_operator)
    (batch ih iw inp ips outp outps : Nat)
    (hb : ¬ batch = 0) (hwz : ¬ (iw = 0 ∨ ih = 0))
    (hmiss : ¬ ((inp = op.last_input ∧ ih = op.last_input_height ∧
        iw = op.last_input_width) ∧ batch ≤ op.valid_batch_size)) :
    qnnp_setup_max_pooling2d_nhwc_u8 true mr true op batch ih iw inp ips outp outps =
      ⟨.success,
        rebuildOp mr (updatedOp op batch ih iw inp ips outp outps)
          (if inp = op.last_input ∧ ih = op.last_input_height ∧
               iw = op.last_input_width
             then op.valid_batch_size else 0)
          batch ih iw inp ips, true⟩ := by
  rw [qnnp_setup_max_pooling2d_nhwc_u8]
  rw [if_neg (by simp), if_neg hb, if_neg hwz]
  rw [if_neg (fun hc => hmiss ⟨hc.1, by have h2 := hc.2; rwa [if_pos hc.1] at h2⟩)]
  rw [if_neg (by simp)]

/-- C2: for every successful rebuilding setup call (batch ≥ 1, input
height ≥ 1, input width ≥ 1, creation invariants on the operator), every
indirection-buffer entry written by the population loop is
`input + ((image*inputHeight + clampedRow)*inputWidth + clampedColumn) *
inputPixelStride` with the row clamped to `[0, inputHeight−1]` and the
column clamped to `[0, inputWidth−1]`; no entry points outside the
logical input region.  The positivity hypotheses on kernel, stride and
dilation are the creation-time invariants of every operator handed to
setup. -/
theorem setup_indirection_entries_clamped (mr : Nat) (op : qnnp_operator)
    (batch ih iw inp ips outp outps : Nat) (r : SetupResult)
    (hr : r = qnnp_setup_max_pooling2d_nhwc_u8 true mr true op batch ih iw inp ips outp outps)
    (hb : 1 ≤ batch) (hih : 1 ≤ ih) (hiw : 1 ≤ iw)
    (hPH : 0 < op.kernel_height) (hPW : 0 < op.kernel_width)
    (hSW : 0 < op.stride_width) (hDW : 0 < op.dilation_width)
    (hmiss : ¬ ((inp = op.last_input ∧ ih = op.last_input_height ∧
        iw = op.last_input_width) ∧ batch ≤ op.valid_batch_size)) :
    r.status = qnnp_status.success ∧
    ∀ i oy py ox px, i < batch →
      oy < compute_output_dimension (op.input_padding_top + ih + op.input_padding_bottom)
            op.kernel_height op.dilation_height op.stride_height →
      py < op.kernel_height →
      ox < compute_output_dimension (op.input_padding_left + iw + op.input_padding_right)
            op.kernel_width op.dilation_width op.stride_width →
      px < op.kernel_width →
      (r.op.indirection
          (flatIndex
            (compute_output_dimension (op.input_padding_top + ih + op.input_padding_bottom)
              op.kernel_height op.dilation_height op.stride_height)
            op.kernel_height op.kernel_width
            (compute_output_dimension (op.input_padding_left + iw + op.input_padding_right)
              op.kernel_width op.dilation_width op.stride_width)
            (width_step op.dilation_width op.stride_width op.kernel_width)
            i oy py ox px) =
        inp + ((i * ih +
            min (doz (oy * op.stride_height + py * op.dilation_height) op.input_padding_top)
              (ih - 1)) * iw +
          min (doz (ox * op.stride_width + px * op.dilation_width) op.input_padding_left)
            (iw - 1)) * ips ∧
       min (doz (oy * op.stride_height + py * op.dilation_height) op.input_padding_top)
          (ih - 1) ≤ ih - 1 ∧
       min (doz (ox * op.stride_width + px * op.dilation_width) op.input_padding_left)
          (iw - 1) ≤ iw - 1) := by
  subst hr
  rw [setup_rebuild_eq mr op batch ih iw inp ips outp outps (by omega) (by omega) hmiss]
  refine ⟨rfl, fun i oy py ox px hi hoy hpy hox hpx => ⟨?_, min_le_right _ _, min_le_right _ _⟩⟩
  exact applyWrites_maxPool op.indirection batch
    (compute_output_dimension (op.input_padding_top + ih + op.input_padding_bottom)
      op.kernel_height op.dilation_height op.stride_height)
    op.kernel_height
    (compute_output_dimension (op.input_padding_left + iw + op.input_padding_right)
      op.kernel_width op.dilation_width op.stride_width)
    op.kernel_width
    (width_step op.dilation_width op.stride_width op.kernel_width)
    inp ih iw ips op.stride_height op.stride_width op.dilation_height op.dilation_width
    op.input_padding_top op.input_padding_left i oy py ox px
    hPH hPW hSW hDW rfl hi hoy hpy hox hpx

/-- A concrete operator as created with kernel 2x2, stride 1, dilation 1,
no padding, one channel (all dynamic and cache fields zero). -/
def wOp : qnnp_operator :=
  { input_padding_top := 0
    input_padding_right := 0
    input_padding_bottom := 0
    input_padding_left := 0
    kernel_height := 2
    kernel_width := 2
    stride_height := 1
    stride_width := 1
    dilation_height := 1
    dilation_width := 1
    channels := 1
    output_min := 0
    output_max := 255
    batch_size := 0
    input_height := 0
    input_width := 0
    input := 0
    input_pixel_stride := 0
    output_height := 0
    output_width := 0
    output := 0
    output_pixel_stride := 0
    last_input := 0
    last_input_height := 0
    last_input_width := 0
    valid_batch_size := 0
    indirection_size := 0
    indirection := fun _ => 0 }

/-- Witness for C2: on `wOp` with a 2x2 input at address 5, the entry of
tuple (0,0,1,0,1) is address 5 + 3 = 8. -/
theorem setup_indirection_entries_clamped_witness :
    (qnnp_setup_max_pooling2d_nhwc_u8 true 9 true wOp 1 2 2 5 1 7 1).op.indirection 3 = 8 := by
  have h := setup_indirection_entries_clamped 9 wOp 1 2 2 5 1 7 1 _ rfl
    (by decide) (by decide) (by decide) (by decide) (by decide) (by decide) (by decide)
    (by decide)
  exact (h.2 0 0 1 0 1 (by decide) (by decide) (by decide) (by decide) (by decide)).1

/-- C3: every rebuilding setup call grows the buffer to exactly
`(mr − 1) + batch * outputHeight * (poolingSize + (outputWidth *
widthStep − 1) * kernelHeight)` pointer-sized entries, which exceeds the
strict logical entry count `batch * outputHeight * (...)` by exactly —
hence by at least — `mr − 1` slots. -/
theorem setup_indirection_buffer_size (mr : Nat) (op : qnnp_operator)
    (batch ih iw inp ips outp outps : Nat) (r : SetupResult)
    (hr : r = qnnp_setup_max_pooling2d_nhwc_u8 true mr true op batch ih iw inp ips outp outps)
    (hmr : 1 ≤ mr) (hb : 1 ≤ batch) (hih : 1 ≤ ih) (hiw : 1 ≤ iw)
    (hmiss : ¬ ((inp = op.last_input ∧ ih = op.last_input_height ∧
        iw = op.last_input_width) ∧ batch ≤ op.valid_batch_size)) :
    r.op.indirection_size =
      (mr - 1) + batch *
        compute_output_dimension (op.input_padding_top + ih + op.input_padding_bottom)
          op.kernel_height op.dilation_height op.stride_height *
        (op.kernel_height * op.kernel_width +
          (compute_output_dimension (op.input_padding_left + iw + op.input_padding_right)
              op.kernel_width op.dilation_width op.stride_width *
            width_step op.dilation_width op.stride_width op.kernel_width - 1) *
          op.kernel_height) ∧
    batch *
        compute_output_dimension (op.input_padding_top + ih + op.input_padding_bottom)
          op.kernel_height op.dilation_height op.stride_height *
        (op.kernel_height * op.kernel_width +
          (compute_output_dimension (op.input_padding_left + iw + op.input_padding_right)
              op.kernel_width op.dilation_width op.stride_width *
            width_step op.dilation_width op.stride_width op.kernel_width - 1) *
          op.kernel_height) + (mr - 1) ≤ r.op.indirection_size := by
  subst hr
  rw [setup_rebuild_eq mr op batch ih iw inp ips outp outps (by omega) (by omega) hmiss]
  exact ⟨rfl, Nat.le_of_eq (Nat.add_comm _ _)⟩

/-- Witness for C3 on `wOp` with a 2x2 input, batch 1, mr 9:
8 + 1*1*(4 + (1*1 − 1)*2) = 12 entries. -/
theorem setup_indirection_buffer_size_witness :
    (qnnp_setup_max_pooling2d_nhwc_u8 true 9 true wOp 1 2 2 5 1 7 1).op.indirection_size = 12 ∧
    12 = (9 - 1) + 1 * 1 * (2 * 2 + (1 * 1 - 1) * 2) := by
  have h := setup_indirection_buffer_size 9 wOp 1 2 2 5 1 7 1 _ rfl
    (by decide) (by decide) (by decide) (by decide) (by decide)
  exact ⟨h.1, by decide⟩

/-- C4: a setup call whose address/shape match the cache and whose batch
is within the validated bound succeeds without reallocating or writing
the indirection buffer.  (Implicit ambient preconditions of a valid
setup call: library initialized, batch ≥ 1, input extents ≥ 1.) -/
theorem setup_cache_hit_preserves_buffer (mr : Nat) (allocOk : Bool) (op : qnnp_operator)
    (batch ih iw inp ips outp outps : Nat) (r : SetupResult)
    (hr : r = qnnp_setup_max_pooling2d_nhwc_u8 true mr allocOk op batch ih iw inp ips outp outps)
    (hb : 1 ≤ batch) (hih : 1 ≤ ih) (hiw : 1 ≤ iw)
    (hm1 : inp = op.last_input) (hm2 : ih = op.last_input_height)
    (hm3 : iw = op.last_input_width) (hle : batch ≤ op.valid_batch_size) :
    r.status = qnnp_status.success ∧ r.realloc_called = false ∧
    r.op.indirection = op.indirection ∧ r.op.indirection_size = op.indirection_size := by
  subst hr
  rw [setup_cache_hit_eq mr allocOk op batch ih iw inp ips outp outps
    (by omega) (by omega) ⟨hm1, hm2, hm3⟩ hle]
  exact ⟨rfl, rfl, rfl, rfl⟩

/-- Concrete operator with a warm cache: last input address 5, last
shape 2x2, validated batch bound 3. -/
def cachedOp : qnnp_operator :=
  { wOp with
    last_input := 5
    last_input_height := 2
    last_input_width := 2
    valid_batch_size := 3
    indirection_size := 12 }

/-- Witness for C4: a matching call with batch 2 ≤ 3 on `cachedOp`. -/
theorem setup_cache_hit_preserves_buffer_witness :
    (qnnp_setup_max_pooling2d_nhwc_u8 true 9 true cachedOp 2 2 2 5 1 7 1).status =
        qnnp_status.success ∧
    (qnnp_setup_max_pooling2d_nhwc_u8 true 9 true cachedOp 2 2 2 5 1 7 1).realloc_called = false ∧
    (qnnp_setup_max_pooling2d_nhwc_u8 true 9 true cachedOp 2 2 2 5 1 7 1).op.indirection =
        cachedOp.indirection ∧
    (qnnp_setup_max_pooling2d_nhwc_u8 true 9 true cachedOp 2 2 2 5 1 7 1).op.indirection_size =
        cachedOp.indirection_size :=
  setup_cache_hit_preserves_buffer 9 true cachedOp 2 2 2 5 1 7 1 _ rfl
    (by decide) (by decide) (by decide) (by decide) (by decide) (by decide) (by decide)

/-- C9: a setup call with batch 0, or input height/width 0, is rejected
as an invalid parameter (after the initialization check) with the whole
descriptor left untouched. -/
theorem setup_zero_args_rejected (mr : Nat) (allocOk : Bool) (op : qnnp_operator)
    (batch ih iw inp ips outp outps : Nat) (r : SetupResult)
    (hr : r = qnnp_setup_max_pooling2d_nhwc_u8 true mr allocOk op batch ih iw inp ips outp outps)
    (h : batch = 0 ∨ ih = 0 ∨ iw = 0) :
    r.status = qnnp_status.invalid_parameter ∧ r.op = op ∧ r.realloc_called = false := by
  subst hr
  rw [qnnp_setup_max_pooling2d_nhwc_u8]
  rw [if_neg (by simp)]
  by_cases hb : batch = 0
  · rw [if_pos hb]
    exact ⟨rfl, rfl, rfl⟩
  · have hw : iw = 0 ∨ ih = 0 := by omega
    rw [if_neg hb, if_pos hw]
    exact ⟨rfl, rfl, rfl⟩

/-- Witness for C9: batch 0 on `wOp`. -/
theorem setup_zero_args_rejected_witness :
    (qnnp_setup_max_pooling2d_nhwc_u8 true 9 true wOp 0 2 2 5 1 7 1).status =
        qnnp_status.invalid_parameter ∧
    (qnnp_setup_max_pooling2d_nhwc_u8 true 9 true wOp 0 2 2 5 1 7 1).op = wOp ∧
    (qnnp_setup_max_pooling2d_nhwc_u8 true 9 true wOp 0 2 2 5 1 7 1).realloc_called = false :=
  setup_zero_args_rejected 9 true wOp 0 2 2 5 1 7 1 _ rfl (by decide)

/-- C7: when the rebuild's reallocation fails, setup returns the
allocation-failure status with the per-call dynamic fields — output
geometry included — already overwritten, while the cache fields and the
buffer itself are unchanged: setup is not transactional. -/
theorem setup_alloc_failure_state (mr : Nat) (op : qnnp_operator)
    (batch ih iw inp ips outp outps : Nat) (r : SetupResult)
    (hr : r = qnnp_setup_max_pooling2d_nhwc_u8 true mr false op batch ih iw inp ips outp outps)
    (hb : 1 ≤ batch) (hih : 1 ≤ ih) (hiw : 1 ≤ iw)
    (hmiss : ¬ ((inp = op.last_input ∧ ih = op.last_input_height ∧
        iw = op.last_input_width) ∧ batch ≤ op.valid_batch_size)) :
    r.status = qnnp_status.out_of_memory ∧
    r.op.batch_size = batch ∧ r.op.input_height = ih ∧ r.op.input_width = iw ∧
    r.op.input = inp ∧ r.op.input_pixel_stride = ips ∧
    r.op.output_height =
      compute_output_dimension (op.input_padding_top + ih + op.input_padding_bottom)
        op.kernel_height op.dilation_height op.stride_height ∧
    r.op.output_width =
      compute_output_dimension (op.input_padding_left + iw + op.input_padding_right)
        op.kernel_width op.dilation_width op.stride_width ∧
    r.op.output = outp ∧ r.op.output_pixel_stride = outps ∧
    r.op.last_input = op.last_input ∧ r.op.last_input_height = op.last_input_height ∧
    r.op.last_input_width = op.last_input_width ∧
    r.op.valid_batch_size = op.valid_batch_size ∧
    r.op.indirection = op.indirection ∧ r.op.indirection_size = op.indirection_size := by
  subst hr
  rw [setup_alloc_fail_eq mr op batch ih iw inp ips outp outps (by omega) (by omega) hmiss]
  exact ⟨rfl, rfl, rfl, rfl, rfl, rfl, rfl, rfl, rfl, rfl, rfl, rfl, rfl, rfl, rfl, rfl⟩

/-- Witness for C7 on `wOp` (cold cache, allocation failing). -/
theorem setup_alloc_failure_state_witness :
    (qnnp_setup_max_pooling2d_nhwc_u8 true 9 false wOp 1 2 2 5 1 7 1).status =
        qnnp_status.out_of_memory ∧
    (qnnp_setup_max_pooling2d_nhwc_u8 true 9 false wOp 1 2 2 5 1 7 1).op.output_height =
        compute_output_dimension (wOp.input_padding_top + 2 + wOp.input_padding_bottom)
          wOp.kernel_height wOp.dilation_height wOp.stride_height ∧
    (qnnp_setup_max_pooling2d_nhwc_u8 true 9 false wOp 1 2 2 5 1 7 1).op.valid_batch_size =
        wOp.valid_batch_size := by
  have h := setup_alloc_failure_state 9 wOp 1 2 2 5 1 7 1 _ rfl
    (by decide) (by decide) (by decide) (by decide)
  exact ⟨h.1, h.2.2.2.2.2.2.1, h.2.2.2.2.2.2.2.2.2.2.2.2.2.1⟩

/-- Operator whose cache remembers a DIFFERENT input address (7) with a
validated batch bound of 5; used to refute the unconditional
`max(previous, new)` cache-update claim. -/
def staleOp : qnnp_operator :=
  { wOp with
    last_input := 7
    last_input_height := 2
    last_input_width := 2
    valid_batch_size := 5 }

/-- Counterexample to C5 as stated: a successful rebuild at a NEW input
address (0 ≠ cached 7) with batch 2 sets the maximum valid batch size to
2, not to `max(previous 5, new 2) = 5`. -/
theorem setup_rebuild_cache_update_counterexample :
    (qnnp_setup_max_pooling2d_nhwc_u8 true 9 true staleOp 2 2 2 0 1 7 1).status =
        qnnp_status.success ∧
    (qnnp_setup_max_pooling2d_nhwc_u8 true 9 true staleOp 2 2 2 0 1 7 1).realloc_called = true ∧
    staleOp.valid_batch_size = 5 ∧
    (qnnp_setup_max_pooling2d_nhwc_u8 true 9 true staleOp 2 2 2 0 1 7 1).op.valid_batch_size = 2 ∧
    ¬ ((qnnp_setup_max_pooling2d_nhwc_u8 true 9 true staleOp 2 2 2 0 1 7 1).op.valid_batch_size =
        max staleOp.valid_batch_size 2) := by
  refine ⟨rfl, rfl, rfl, rfl, ?_⟩
  decide

/-- C5 amended: after a successful rebuild the cache holds the new
address/height/width, and the maximum valid batch size becomes
`max(previous maximum, new batch)` when the new input address, height
and width all equal the cached ones, and the new batch size otherwise;
within a fixed address/shape the cached bound grows monotonically. -/
theorem setup_rebuild_cache_update (mr : Nat) (op : qnnp_operator)
    (batch ih iw inp ips outp outps : Nat) (r : SetupResult)
    (hr : r = qnnp_setup_max_pooling2d_nhwc_u8 true mr true op batch ih iw inp ips outp outps)
    (hb : 1 ≤ batch) (hih : 1 ≤ ih) (hiw : 1 ≤ iw)
    (hmiss : ¬ ((inp = op.last_input ∧ ih = op.last_input_height ∧
        iw = op.last_input_width) ∧ batch ≤ op.valid_batch_size)) :
    r.op.last_input = inp ∧ r.op.last_input_height = ih ∧ r.op.last_input_width = iw ∧
    r.op.valid_batch_size =
      (if inp = op.last_input ∧ ih = op.last_input_height ∧ iw = op.last_input_width
        then max op.valid_batch_size batch else batch) ∧
    ((inp = op.last_input ∧ ih = op.last_input_height ∧ iw = op.last_input_width) →
      op.valid_batch_size ≤ r.op.valid_batch_size) := by
  subst hr
  rw [setup_rebuild_eq mr op batch ih iw inp ips outp outps (by omega) (by omega) hmiss]
  refine ⟨rfl, rfl, rfl, ?_, ?_⟩
  · show max (if inp = op.last_input ∧ ih = op.last_input_height ∧
        iw = op.last_input_width then op.valid_batch_size else 0) batch = _
    by_cases hm : inp = op.last_input ∧ ih = op.last_input_height ∧ iw = op.last_input_width
    · rw [if_pos hm, if_pos hm]
    · rw [if_neg hm, if_neg hm, Nat.zero_max]
  · intro hm
    show op.valid_batch_size ≤ max (if inp = op.last_input ∧ ih = op.last_input_height ∧
        iw = op.last_input_width then op.valid_batch_size else 0) batch
    rw [if_pos hm]
    exact Nat.le_max_left _ _

/-- Witness for the amended C5: matching-address rebuild on `cachedOp`
(cached bound 3) with batch 4 gives bound `max 3 4 = 4`. -/
theorem setup_rebuild_cache_update_witness :
    (qnnp_setup_max_pooling2d_nhwc_u8 true 9 true cachedOp 4 2 2 5 1 7 1).op.last_input = 5 ∧
    (qnnp_setup_max_pooling2d_nhwc_u8 true 9 true cachedOp 4 2 2 5 1 7 1).op.valid_batch_size =
        (if (5 : Nat) = cachedOp.last_input ∧ (2 : Nat) = cachedOp.last_input_height ∧
            (2 : Nat) = cachedOp.last_input_width
          then max cachedOp.valid_batch_size 4 else 4) ∧
    cachedOp.valid_batch_size ≤
        (qnnp_setup_max_pooling2d_nhwc_u8 true 9 true cachedOp 4 2 2 5 1 7 1).op.valid_batch_size := by
  have h := setup_rebuild_cache_update 9 cachedOp 4 2 2 5 1 7 1 _ rfl
    (by decide) (by decide) (by decide) (by decide)
  exact ⟨h.1, h.2.2.2.1, h.2.2.2.2 (by decide)⟩

/-- C6: creation short-circuits on an uninitialized library, then runs
the validation checks in source order — wrapped pooling size zero,
pooling size one, zero stride, zero dilation, zero channels — each
returning the invalid-parameter classification before the allocation
point is reached; a configuration passing every check with a working
allocator yields success and an allocated handle. -/
theorem create_checks_ordered (initialized allocOk : Bool)
    (pt pr pb pl ph pw sh sw dh dw ch omin omax : Nat) (r : CreateResult)
    (hr : r = qnnp_create_max_pooling2d_nhwc_u8 initialized allocOk
      pt pr pb pl ph pw sh sw dh dw ch omin omax) :
    (initialized = false →
      r.status = qnnp_status.uninitialized ∧ r.op = none ∧ r.allocAttempted = false) ∧
    (initialized = true → uint32_mul ph pw = 0 →
      r.status = qnnp_status.invalid_parameter ∧ r.op = none ∧ r.allocAttempted = false) ∧
    (initialized = true → ¬ uint32_mul ph pw = 0 → uint32_mul ph pw = 1 →
      r.status = qnnp_status.invalid_parameter ∧ r.op = none ∧ r.allocAttempted = false) ∧
    (initialized = true → ¬ uint32_mul ph pw = 0 → ¬ uint32_mul ph pw = 1 →
      (sh = 0 ∨ sw = 0) →
      r.status = qnnp_status.invalid_parameter ∧ r.op = none ∧ r.allocAttempted = false) ∧
    (initialized = true → ¬ uint32_mul ph pw = 0 → ¬ uint32_mul ph pw = 1 →
      ¬ (sh = 0 ∨ sw = 0) → (dh = 0 ∨ dw = 0) →
      r.status = qnnp_status.invalid_parameter ∧ r.op = none ∧ r.allocAttempted = false) ∧
    (initialized = true → ¬ uint32_mul ph pw = 0 → ¬ uint32_mul ph pw = 1 →
      ¬ (sh = 0 ∨ sw = 0) → ¬ (dh = 0 ∨ dw = 0) → ch = 0 →
      r.status = qnnp_status.invalid_parameter ∧ r.op = none ∧ r.allocAttempted = false) ∧
    (initialized = true → ¬ uint32_mul ph pw = 0 → ¬ uint32_mul ph pw = 1 →
      ¬ (sh = 0 ∨ sw = 0) → ¬ (dh = 0 ∨ dw = 0) → ¬ ch = 0 → allocOk = true →
      r.status = qnnp_status.success ∧ r.op.isSome = true ∧ r.allocAttempted = true) := by
  subst hr
  refine ⟨fun h1 => ?_, fun h1 h2 => ?_, fun h1 h2 h3 => ?_, fun h1 h2 h3 h4 => ?_,
    fun h1 h2 h3 h4 h5 => ?_, fun h1 h2 h3 h4 h5 h6 => ?_, fun h1 h2 h3 h4 h5 h6 h7 => ?_⟩ <;>
    subst h1 <;>
    simp_all [qnnp_create_max_pooling2d_nhwc_u8]

/-- Witness for C6: a valid 2x2 kernel configuration is accepted. -/
theorem create_checks_ordered_witness :
    (qnnp_create_max_pooling2d_nhwc_u8 true true 0 0 0 0 2 2 1 1 1 1 1 0 255).status =
        qnnp_status.success ∧
    (qnnp_create_max_pooling2d_nhwc_u8 true true 0 0 0 0 2 2 1 1 1 1 1 0 255).op.isSome = true ∧
    (qnnp_create_max_pooling2d_nhwc_u8 true true 0 0 0 0 2 2 1 1 1 1 1 0 255).allocAttempted =
        true := by
  have h := create_checks_ordered true true 0 0 0 0 2 2 1 1 1 1 1 0 255 _ rfl
  exact h.2.2.2.2.2.2 rfl (by decide) (by decide) (by decide) (by decide) (by decide) rfl

/-- C10: the creation-time pooling-size check multiplies the two kernel
extents as `uint32_t`, i.e. modulo `2^32`: kernel 65536 x 65536 (both
positive) wraps to pooling size 0 and is rejected by the zero-size
check, and kernel 4294967295 x 4294967295 wraps to pooling size 1 and is
rejected by the 1x1 check — in both cases before any allocation. -/
theorem create_pooling_size_uint32_wrap :
    0 < 65536 ∧ 0 < 4294967295 ∧
    uint32_mul 65536 65536 = 0 ∧
    (qnnp_create_max_pooling2d_nhwc_u8 true true 0 0 0 0 65536 65536 1 1 1 1 1 0 255).status =
        qnnp_status.invalid_parameter ∧
    (qnnp_create_max_pooling2d_nhwc_u8 true true 0 0 0 0 65536 65536 1 1 1 1 1 0 255).allocAttempted = false ∧
    uint32_mul 4294967295 4294967295 = 1 ∧
    (qnnp_create_max_pooling2d_nhwc_u8 true true 0 0 0 0 4294967295 4294967295 1 1 1 1 1 0 255).status =
        qnnp_status.invalid_parameter ∧
    (qnnp_create_max_pooling2d_nhwc_u8 true true 0 0 0 0 4294967295 4294967295 1 1 1 1 1 0 255).allocAttempted = false := by
  refine ⟨by decide, by decide, by decide, ?_, ?_, by decide, ?_, ?_⟩ <;> rfl

/-- C8: two successful setup calls with the same input address and
shape, the second with a larger batch, both succeed; the second call
reallocates and strictly grows the buffer, and every entry at a flat
index covered by the first call's batch range holds the same address
after the second call as after the first.  (The first call is taken at
a cache miss — e.g. on a freshly created operator — and the creation
invariants on kernel/stride/dilation hold.) -/
theorem setup_grow_preserves_entries (mr : Nat) (op : qnnp_operator)
    (batch1 batch2 ih iw inp ips outp outps : Nat) (r1 r2 : SetupResult)
    (hr1 : r1 = qnnp_setup_max_pooling2d_nhwc_u8 true mr true op batch1 ih iw inp ips outp outps)
    (hr2 : r2 = qnnp_setup_max_pooling2d_nhwc_u8 true mr true r1.op batch2 ih iw inp ips outp outps)
    (hb1 : 1 ≤ batch1) (h12 : batch1 < batch2) (hih : 1 ≤ ih) (hiw : 1 ≤ iw)
    (hPH : 0 < op.kernel_height) (hPW : 0 < op.kernel_width)
    (hSW : 0 < op.stride_width) (hDW : 0 < op.dilation_width)
    (hmiss1 : ¬ ((inp = op.last_input ∧ ih = op.last_input_height ∧
        iw = op.last_input_width) ∧ batch1 ≤ op.valid_batch_size)) :
    r1.status = qnnp_status.success ∧ r2.status = qnnp_status.success ∧
    r2.realloc_called = true ∧
    r1.op.indirection_size < r2.op.indirection_size ∧
    ∀ i oy py ox px, i < batch1 →
      oy < compute_output_dimension (op.input_padding_top + ih + op.input_padding_bottom)
            op.kernel_height op.dilation_height op.stride_height →
      py < op.kernel_height →
      ox < compute_output_dimension (op.input_padding_left + iw + op.input_padding_right)
            op.kernel_width op.dilation_width op.stride_width →
      px < op.kernel_width →
      r2.op.indirection
          (flatIndex
            (compute_output_dimension (op.input_padding_top + ih + op.input_padding_bottom)
              op.kernel_height op.dilation_height op.stride_height)
            op.kernel_height op.kernel_width
            (compute_output_dimension (op.input_padding_left + iw + op.input_padding_right)
              op.kernel_width op.dilation_width op.stride_width)
            (width_step op.dilation_width op.stride_width op.kernel_width)
            i oy py ox px) =
        r1.op.indirection
          (flatIndex
            (compute_output_dimension (op.input_padding_top + ih + op.input_padding_bottom)
              op.kernel_height op.dilation_height op.stride_height)
            op.kernel_height op.kernel_width
            (compute_output_dimension (op.input_padding_left + iw + op.input_padding_right)
              op.kernel_width op.dilation_width op.stride_width)
            (width_step op.dilation_width op.stride_width op.kernel_width)
            i oy py ox px) := by
  have e1 : r1 = ⟨qnnp_status.success,
      rebuildOp mr (updatedOp op batch1 ih iw inp ips outp outps)
        (if inp = op.last_input ∧ ih = op.last_input_height ∧ iw = op.last_input_width
          then op.valid_batch_size else 0)
        batch1 ih iw inp ips, true⟩ :=
    hr1.trans (setup_rebuild_eq mr op batch1 ih iw inp ips outp outps
      (by omega) (by omega) hmiss1)
  have hv1 : r1.op.valid_batch_size = batch1 := by
    rw [e1]
    show max (if inp = op.last_input ∧ ih = op.last_input_height ∧ iw = op.last_input_width
      then op.valid_batch_size else 0) batch1 = batch1
    by_cases hm : inp = op.last_input ∧ ih = op.last_input_height ∧ iw = op.last_input_width
    · rw [if_pos hm]
      have hlt : op.valid_batch_size < batch1 := by
        by_contra hcon
        exact hmiss1 ⟨hm, Nat.le_of_not_lt hcon⟩
      exact Nat.max_eq_right (Nat.le_of_lt hlt)
    · rw [if_neg hm, Nat.zero_max]
  have hmiss2 : ¬ ((inp = r1.op.last_input ∧ ih = r1.op.last_input_height ∧
      iw = r1.op.last_input_width) ∧ batch2 ≤ r1.op.valid_batch_size) := by
    intro hc
    have hle := hc.2
    rw [hv1] at hle
    omega
  have e2 : r2 = ⟨qnnp_status.success,
      rebuildOp mr (updatedOp r1.op batch2 ih iw inp ips outp outps)
        (if inp = r1.op.last_input ∧ ih = r1.op.last_input_height ∧
            iw = r1.op.last_input_width
          then r1.op.valid_batch_size else 0)
        batch2 ih iw inp ips, true⟩ :=
    hr2.trans (setup_rebuild_eq mr r1.op batch2 ih iw inp ips outp outps
      (by omega) (by omega) hmiss2)
  have s1 : r1.op.indirection_size =
      (mr - 1) + batch1 *
        compute_output_dimension (op.input_padding_top + ih + op.input_padding_bottom)
          op.kernel_height op.dilation_height op.stride_height *
        (op.kernel_height * op.kernel_width +
          (compute_output_dimension (op.input_padding_left + iw + op.input_padding_right)
              op.kernel_width op.dilation_width op.stride_width *
            width_step op.dilation_width op.stride_width op.kernel_width - 1) *
          op.kernel_height) := by
    rw [e1]
    rfl
  have s2 : r2.op.indirection_size =
      (mr - 1) + batch2 *
        compute_output_dimension (op.input_padding_top + ih + op.input_padding_bottom)
          op.kernel_height op.dilation_height op.stride_height *
        (op.kernel_height * op.kernel_width +
          (compute_output_dimension (op.input_padding_left + iw + op.input_padding_right)
              op.kernel_width op.dilation_width op.stride_width *
            width_step op.dilation_width op.stride_width op.kernel_width - 1) *
          op.kernel_height) := by
    rw [e2, e1]
    rfl
  refine ⟨by rw [e1], by rw [e2], by rw [e2], ?_, ?_⟩
  · rw [s1, s2]
    apply Nat.add_lt_add_left
    rw [Nat.mul_assoc, Nat.mul_assoc]
    refine mul_lt_mul_of_pos_right h12 (Nat.mul_pos (Nat.succ_pos _) ?_)
    exact Nat.lt_of_lt_of_le (Nat.mul_pos hPH hPW) (Nat.le_add_right _ _)
  · intro i oy py ox px hi hoy hpy hox hpx
    have h1 : r1.op.indirection
        (flatIndex
          (compute_output_dimension (op.input_padding_top + ih + op.input_padding_bottom)
            op.kernel_height op.dilation_height op.stride_height)
          op.kernel_height op.kernel_width
          (compute_output_dimension (op.input_padding_left + iw + op.input_padding_right)
            op.kernel_width op.dilation_width op.stride_width)
          (width_step op.dilation_width op.stride_width op.kernel_width)
          i oy py ox px) =
        indirectionAddr inp ih iw ips op.stride_height op.stride_width
          op.dilation_height op.dilation_width op.input_padding_top op.input_padding_left
          i oy py ox px := by
      rw [e1]
      exact applyWrites_maxPool op.indirection batch1
        (compute_output_dimension (op.input_padding_top + ih + op.input_padding_bottom)
          op.kernel_height op.dilation_height op.stride_height)
        op.kernel_height
        (compute_output_dimension (op.input_padding_left + iw + op.input_padding_right)
          op.kernel_width op.dilation_width op.stride_width)
        op.kernel_width
        (width_step op.dilation_width op.stride_width op.kernel_width)
        inp ih iw ips op.stride_height op.stride_width op.dilation_height op.dilation_width
        op.input_padding_top op.input_padding_left i oy py ox px
        hPH hPW hSW hDW rfl hi hoy hpy hox hpx
    have h2 : r2.op.indirection
        (flatIndex
          (compute_output_dimension (op.input_padding_top + ih + op.input_padding_bottom)
            op.kernel_height op.dilation_height op.stride_height)
          op.kernel_height op.kernel_width
          (compute_output_dimension (op.input_padding_left + iw + op.input_padding_right)
            op.kernel_width op.dilation_width op.stride_width)
          (width_step op.dilation_width op.stride_width op.kernel_width)
          i oy py ox px) =
        indirectionAddr inp ih iw ips op.stride_height op.stride_width
          op.dilation_height op.dilation_width op.input_padding_top op.input_padding_left
          i oy py ox px := by
      rw [e2, e1]
      exact applyWrites_maxPool _ batch2
        (compute_output_dimension (op.input_padding_top + ih + op.input_padding_bottom)
          op.kernel_height op.dilation_height op.stride_height)
        op.kernel_height
        (compute_output_dimension (op.input_padding_left + iw + op.input_padding_right)
          op.kernel_width op.dilation_width op.stride_width)
        op.kernel_width
        (width_step op.dilation_width op.stride_width op.kernel_width)
        inp ih iw ips op.stride_height op.stride_width op.dilation_height op.dilation_width
        op.input_padding_top op.input_padding_left i oy py ox px
        hPH hPW hSW hDW rfl (Nat.lt_trans hi h12) hoy hpy hox hpx
    exact h2.trans h1.symm

/-- Witness for C8: cold first call on `wOp` with batch 1, second call
with batch 2 over the same 2x2 input at address 5; entry 3 of the first
batch range keeps its value. -/
theorem setup_grow_preserves_entries_witness :
    (qnnp_setup_max_pooling2d_nhwc_u8 true 9 true wOp 1 2 2 5 1 7 1).status =
        qnnp_status.success ∧
    (qnnp_setup_max_pooling2d_nhwc_u8 true 9 true
        (qnnp_setup_max_pooling2d_nhwc_u8 true 9 true wOp 1 2 2 5 1 7 1).op
        2 2 2 5 1 7 1).status = qnnp_status.success ∧
    (qnnp_setup_max_pooling2d_nhwc_u8 true 9 true
        (qnnp_setup_max_pooling2d_nhwc_u8 true 9 true wOp 1 2 2 5 1 7 1).op
        2 2 2 5 1 7 1).realloc_called = true ∧
    (qnnp_setup_max_pooling2d_nhwc_u8 true 9 true wOp 1 2 2 5 1 7 1).op.indirection_size <
      (qnnp_setup_max_pooling2d_nhwc_u8 true 9 true
        (qnnp_setup_max_pooling2d_nhwc_u8 true 9 true wOp 1 2 2 5 1 7 1).op
        2 2 2 5 1 7 1).op.indirection_size ∧
    (qnnp_setup_max_pooling2d_nhwc_u8 true 9 true
        (qnnp_setup_max_pooling2d_nhwc_u8 true 9 true wOp 1 2 2 5 1 7 1).op
        2 2 2 5 1 7 1).op.indirection 3 =
      (qnnp_setup_max_pooling2d_nhwc_u8 true 9 true wOp 1 2 2 5 1 7 1).op.indirection 3 := by
  have h := setup_grow_preserves_entries 9 wOp 1 2 2 2 5 1 7 1 _ _ rfl rfl
    (by decide) (by decide) (by decide) (by decide) (by decide) (by decide) (by decide)
    (by decide) (by decide)
  exact ⟨h.1, h.2.1, h.2.2.1, h.2.2.2.1,
    h.2.2.2.2 0 0 1 0 1 (by decide) (by decide) (by decide) (by decide) (by decide)⟩
